import Mathlib

/-!
Shallow embedding of `src/s3-deployment-custom-resource/index.js`.

The handler is a CloudFormation custom resource: it reads a trigger event,
validates it, and either uploads the files of a nested `package.zip` artifact
to a destination S3 bucket (Create/Update), or deletes all objects of the
bucket named in the physical resource id (Delete), always reporting back by
an HTTP PUT to the event's `ResponseURL` (`sendCloudFormationResponse`).

The AWS SDK, the filesystem and the `mime` library are external collaborators;
their outcomes are supplied by a `World` oracle.  The handler itself is
modelled as a function producing the linear trace (`List Action`) of its
externally observable steps: object-store calls, cache-invalidation calls and
callback responses, in the order the Node.js event loop executes them
(synchronous code first, then the queued SDK callbacks).  Local scratch-file
operations (`/tmp` writes, directory resets) are not externally observable and
do not appear in the trace.
-/

namespace S3DeploymentCustomResource

/-- JS truthiness of a possibly-undefined string value: `undefined` and the
empty string are falsy, every other string is truthy. -/
def truthy : Option String → Bool
  | none => false
  | some s => !(s == "")

/-- JS template-literal interpolation of a possibly-undefined string value. -/
def jsShow : Option String → String
  | none => "undefined"
  | some s => s

/-- The module's `constants` object (index.js lines 21-27). -/
structure Constants where
  SUCCESS : String
  FAILED : String
  UPDATE : String
  CREATE : String
  DELETE : String
  deriving Repr

def constants : Constants :=
  { SUCCESS := "SUCCESS"
  , FAILED := "FAILED"
  , UPDATE := "Update"
  , CREATE := "Create"
  , DELETE := "Delete" }

/-- Worker for `jsSplit`: walks the character list with a fuel counter equal
to its length (every step consumes at least one character, so the fuel never
runs out before the list does). -/
def jsSplitAux (sep : List Char) : Nat → List Char → List Char → List (List Char)
  | _, [], acc => [acc.reverse]
  | 0, cs, acc => [acc.reverse ++ cs]
  | n + 1, c :: rest, acc =>
    if sep.isPrefixOf (c :: rest) then
      acc.reverse :: jsSplitAux sep n (List.drop (sep.length - 1) rest) []
    else
      jsSplitAux sep n rest (c :: acc)

/-- JS `String.prototype.split` with a non-empty string separator: the string
is cut at every occurrence of the separator (so `"a::b".split("::")` is
`["a", "b"]` and a string not containing the separator splits into the
one-element list holding it whole). -/
def jsSplit (s : String) (sep : String) : List String :=
  (jsSplitAux sep.toList s.toList.length s.toList []).map fun cs => String.mk cs

/-- Characterwise ASCII lowercasing (JS `String.prototype.toLowerCase` on the
ASCII names involved here). -/
def lowerString (s : String) : String := String.mk (s.toList.map Char.toLower)

/-- Extension-to-content-type table of the third-party `mime` collaborator
library (a representative slice of its database: the handler only consults it
through `mime.getType`). -/
def mimeTable : List (String × String) :=
  [ ("txt", "text/plain")
  , ("css", "text/css")
  , ("html", "text/html")
  , ("js", "application/javascript")
  , ("json", "application/json")
  , ("png", "image/png")
  , ("jpg", "image/jpeg")
  , ("gif", "image/gif")
  , ("svg", "image/svg+xml") ]

/-- Model of the third-party `mime` library's `getType(path)`: the extension of
the last path component is looked up in the type database; a name with no
extension or an unknown extension yields `none` (JS `null`) — `getType` has no
default-type fallback. -/
def mime_getType (path : String) : Option String :=
  let base := (jsSplit path "/").getLastD ""
  let parts := jsSplit base "."
  if parts.length ≤ 1 then none
  else mimeTable.lookup (lowerString (parts.getLastD ""))

/-- One entry of the inner `package.zip` archive as enumerated by
`AdmZip.getEntries()`: entry name, directory flag, raw bytes. -/
structure InnerEntry where
  entryName : String
  isDirectory : Bool
  data : List Nat
  deriving DecidableEq, Repr

/-- `event.ResourceProperties.Options` as destructured by the handler. -/
structure ResourceOptions where
  SourceBucket : Option String
  SourceArtifact : Option String
  DestinationBucket : Option String
  deriving DecidableEq, Repr

/-- The trigger event (index.js line 124 destructures `LogicalResourceId`,
`RequestType` and `ResourceProperties.Options`; `PhysicalResourceId`,
`StackId`, `RequestId` and `ResponseURL` are read later). -/
structure CfnEvent where
  LogicalResourceId : String
  RequestType : String
  Options : Option ResourceOptions
  PhysicalResourceId : Option String
  StackId : String
  RequestId : String
  ResponseURL : String
  deriving DecidableEq, Repr

/-- Module configuration read from `process.env` (line 11). -/
structure Config where
  CLOUD_FRONT_DISTRIBUTION_ID : Option String
  deriving DecidableEq, Repr

/-- Oracle for the external collaborators: outcomes of the AWS SDK calls, of
the scratch-filesystem writes, and the content found in the extracted inner
archive.  `putObjectResult` and `deleteObjectOk` are keyed by object key. -/
structure World where
  getObjectResult : Except String (List String)
  saveError : Option String
  extractError : Option String
  innerArchive : List InnerEntry
  putObjectResult : String → Except String String
  invalidationError : Option String
  listObjectsResult : Except String (List String)
  deleteObjectOk : String → Bool

/-- An externally observable step of one handler invocation: an object-store
or cache-invalidation request being dispatched, or one terminal callback
response (`sendCloudFormationResponse`) being sent. -/
inductive Action where
  | listObjectsCall (bucket : Option String)
  | deleteObjectCall (bucket : Option String) (key : String)
  | getObjectCall (bucket key : String)
  | putObjectCall (bucket key : String) (contentLength : Nat) (contentType : Option String)
  | invalidationCall (distributionId : String)
  | response (status message : String) (physicalResourceId : Option String)
  deriving DecidableEq, Repr

/-- Is this action a callback response (`sendCloudFormationResponse`)? -/
def Action.isResponse : Action → Bool
  | Action.response _ _ _ => true
  | _ => false

/-- Is this action an outbound object-store or edge-cache call? -/
def Action.isStoreOrCacheCall : Action → Bool
  | Action.response _ _ _ => false
  | _ => true

/-- The callback responses of a trace, in order. -/
def responses (t : List Action) : List Action := t.filter Action.isResponse

/-- How many callback responses a trace contains. -/
def countResponses (t : List Action) : Nat := (responses t).length

/-- The first callback response of a trace, if any. -/
def firstResponse (t : List Action) : Option Action := (responses t).head?

/-- The `results` array `async.parallel` hands to its final callback,
linearized in task order: each completed task contributed its callback's
second argument (`data.Key` on success, `entry.entryName` on failure); on the
first failure the aggregate callback fires with the results collected so far
(index.js lines 249-252 and 256). -/
def collectResults (w : World) : List InnerEntry → List String
  | [] => []
  | e :: rest =>
    match w.putObjectResult e.entryName with
    | Except.ok k => k :: collectResults w rest
    | Except.error _ => [e.entryName]

/-- Did some upload task fail (`async.parallel` reports the first error)? -/
def anyPutFailed (w : World) (entries : List InnerEntry) : Bool :=
  entries.any fun e =>
    match w.putObjectResult e.entryName with
    | Except.ok _ => false
    | Except.error _ => true

/-- The scratch directory the inner package is extracted into (line 220). -/
def deploymentDir : String := "/tmp/dist"

/-- `cleanBucket(resourceId)` (index.js lines 142-163): a falsy resource id
fails immediately; otherwise the id is split on `::`, `listObjects` is
dispatched, and the SUCCESS response is sent synchronously (line 162) before
the `listObjects` callback runs.  The callback reports a FAILED response on a
listing error, else dispatches one `deleteObject` per listed key, and each
failing deletion reports its own FAILED response. -/
def cleanBucket (w : World) (resourceId : Option String) : List Action :=
  if !(truthy resourceId) then
    [Action.response constants.FAILED
      ("Invalid physical resource id: " ++ jsShow resourceId) none]
  else
    let rid := jsShow resourceId
    let bucket := (jsSplit rid "::")[1]?
    let callbackActions :=
      match w.listObjectsResult with
      | Except.error e =>
        [Action.response constants.FAILED ("Could not list bucket objects: " ++ e) none]
      | Except.ok keys =>
        keys.map (fun k => Action.deleteObjectCall bucket k) ++
        (keys.filter (fun k => !(w.deleteObjectOk k))).map
          (fun k => Action.response constants.FAILED ("Could not delete object: " ++ k) none)
    Action.listObjectsCall bucket ::
    Action.response constants.SUCCESS "OK" (some rid) ::
    callbackActions

/-- `uploadArtifacts(resourceOptions)` (index.js lines 165-303).  Validates
the options bag, fetches the artifact, saves it, scans the outer archive for
`package.zip`, extracts it (note line 209-212: an extraction exception sends a
FAILED response but only returns from the `forEach` lambda, so execution falls
through), enumerates the inner archive's non-directory entries, dispatches one
`putObject` per entry with `mime.getType`-resolved content type, then on the
aggregate callback either reports the first upload failure, or (when a
CloudFront distribution id is configured) dispatches an invalidation — whose
failure sends a FAILED response and then, missing a `return` (line 277-279),
still sends the SUCCESS response — or reports SUCCESS directly. -/
def uploadArtifacts (w : World) (cfg : Config) (resourceOptions : Option ResourceOptions) :
    List Action :=
  let missing :=
    [Action.response constants.FAILED
      "Missing required options: SourceBucket, SourceArtifact, DestinationBucket" none]
  match resourceOptions with
  | none => missing
  | some opts =>
    if !(truthy opts.SourceBucket && truthy opts.SourceArtifact
          && truthy opts.DestinationBucket) then
      missing
    else
      let sourceBucket := opts.SourceBucket.getD ""
      let sourceArtifact := opts.SourceArtifact.getD ""
      let destinationBucket := opts.DestinationBucket.getD ""
      let physicalResourceId := "Deployment::" ++ destinationBucket
      Action.getObjectCall sourceBucket sourceArtifact ::
      match w.getObjectResult with
      | Except.error e =>
        [Action.response constants.FAILED
          ("Could not fetch artifact: " ++ sourceBucket ++ "/" ++ sourceArtifact ++ ": " ++ e)
          none]
      | Except.ok zipEntryNames =>
        match w.saveError with
        | some ex =>
          [Action.response constants.FAILED ("Could not save artifact to disk: " ++ ex) none]
        | none =>
          let packageFound := zipEntryNames.any (fun n => n == "package.zip")
          let extractFailure :=
            match packageFound, w.extractError with
            | true, some ex =>
              [Action.response constants.FAILED ("Could not save package to disk: " ++ ex) none]
            | _, _ => []
          extractFailure ++
          if !packageFound then
            [Action.response constants.FAILED "Could not package.zip in artifact" none]
          else
            let packageEntries := w.innerArchive.filter (fun e => !e.isDirectory)
            let putCalls := packageEntries.map fun e =>
              Action.putObjectCall destinationBucket e.entryName e.data.length
                (mime_getType (deploymentDir ++ "/" ++ e.entryName))
            let results := String.intercalate "," (collectResults w packageEntries)
            putCalls ++
            if anyPutFailed w packageEntries then
              [Action.response constants.FAILED
                ("Error while uploading " ++ results ++ " to destination bucket: null") none]
            else if truthy cfg.CLOUD_FRONT_DISTRIBUTION_ID then
              Action.invalidationCall (jsShow cfg.CLOUD_FRONT_DISTRIBUTION_ID) ::
              match w.invalidationError with
              | some ex =>
                [Action.response constants.FAILED
                  ("Error while uploading " ++ results ++ " to destination bucket: " ++ ex) none,
                 Action.response constants.SUCCESS "OK" (some physicalResourceId)]
              | none =>
                [Action.response constants.SUCCESS "OK" (some physicalResourceId)]
            else
              [Action.response constants.SUCCESS "OK" (some physicalResourceId)]

/-- `exports.handler` (index.js lines 121-141): validates the logical resource
id, then dispatches on the request type (for Delete the options bag is
replaced by an empty object before dispatch, line 126). -/
def handler (w : World) (cfg : Config) (event : CfnEvent) : List Action :=
  let resourceOptions :=
    if event.RequestType == constants.DELETE then some ⟨none, none, none⟩ else event.Options
  if !(event.LogicalResourceId == "WebsiteDeployment") then
    [Action.response constants.FAILED
      ("Invalid LogicalResourceId: " ++ event.LogicalResourceId) none]
  else if event.RequestType == constants.CREATE || event.RequestType == constants.UPDATE then
    uploadArtifacts w cfg resourceOptions
  else if event.RequestType == constants.DELETE then
    cleanBucket w event.PhysicalResourceId
  else
    [Action.response constants.FAILED
      ("Invalid request type " ++ event.RequestType) none]

/-- The JSON body `sendCloudFormationResponse` PUTs to `event.ResponseURL`
(index.js lines 306-314); `DataField` holds `Data.message`. -/
structure ResponseBody where
  Status : String
  Reason : String
  PhysicalResourceId : String
  StackId : String
  RequestId : String
  LogicalResourceId : String
  DataField : String
  deriving DecidableEq, Repr

/-- The arguments the Lambda completion callback receives when
`sendCloudFormationResponse` finishes (index.js lines 337-338). -/
structure Completion where
  errorArg : Option String
  dataArg : Option String
  deriving DecidableEq, Repr

/-- `sendCloudFormationResponse(responseStatus, responseData, physicalResourceId)`
(index.js lines 305-339): builds the response body (the physical resource id
falls back to `context.logStreamName` when falsy), PUTs it to the callback
URL, and completes the invocation: on a successful PUT the Lambda callback
receives the status as error argument iff the status is FAILED (line 337); if
the PUT itself fails the rejection string becomes the error argument
(line 333 and 338). -/
def sendCloudFormationResponse (event : CfnEvent) (logStreamName : String)
    (responseStatus : String) (responseMessage : String)
    (physicalResourceId : Option String) (putResult : Except String Unit) :
    ResponseBody × Completion :=
  let body : ResponseBody :=
    { Status := responseStatus
    , Reason := "See the details in CloudWatch Log Stream: " ++ logStreamName
    , PhysicalResourceId := if truthy physicalResourceId then jsShow physicalResourceId
                            else logStreamName
    , StackId := event.StackId
    , RequestId := event.RequestId
    , LogicalResourceId := event.LogicalResourceId
    , DataField := responseMessage }
  let completion : Completion :=
    match putResult with
    | Except.ok _ =>
      { errorArg := if responseStatus == constants.FAILED then some responseStatus else none
      , dataArg := some responseMessage }
    | Except.error e =>
      { errorArg := some ("http request error: " ++ e), dataArg := none }
  (body, completion)

/-! Concrete fixtures used to instantiate the theorems. -/

/-- An all-success collaborator oracle whose fetched artifact archive contains
`package.zip`, itself holding exactly `a.txt` (bytes `d1`) and `b/c.css`
(bytes `d2`). -/
def roundTripWorld (d1 d2 : List Nat) : World :=
  { getObjectResult := Except.ok ["package.zip"]
  , saveError := none
  , extractError := none
  , innerArchive := [⟨"a.txt", false, d1⟩, ⟨"b/c.css", false, d2⟩]
  , putObjectResult := fun k => Except.ok k
  , invalidationError := none
  , listObjectsResult := Except.ok []
  , deleteObjectOk := fun _ => true }

/-- A trigger event for the Create/Update path. -/
def roundTripEvent (requestType sourceBucket sourceArtifact destinationBucket : String) :
    CfnEvent :=
  { LogicalResourceId := "WebsiteDeployment"
  , RequestType := requestType
  , Options := some ⟨some sourceBucket, some sourceArtifact, some destinationBucket⟩
  , PhysicalResourceId := none
  , StackId := "stack-1"
  , RequestId := "req-1"
  , ResponseURL := "https://callback.example" }

/-- A Delete trigger event carrying the given prior physical resource id. -/
def deleteEvent (pid : Option String) : CfnEvent :=
  { LogicalResourceId := "WebsiteDeployment"
  , RequestType := "Delete"
  , Options := none
  , PhysicalResourceId := pid
  , StackId := "stack-1"
  , RequestId := "req-1"
  , ResponseURL := "https://callback.example" }

/-- Oracle whose inner archive holds a single file whose content type the
`mime` database cannot resolve. -/
def unknownTypeWorld : World :=
  { roundTripWorld [] [] with innerArchive := [⟨"file.xyz", false, [7]⟩] }

/-- All-success oracle except that the CloudFront invalidation call fails. -/
def invalidationFailWorld : World :=
  { roundTripWorld [1, 2] [3] with invalidationError := some "AccessDenied" }

/-! Claim theorems. -/

/-- C5: for every request whose `LogicalResourceId` differs from the single
expected value `WebsiteDeployment`, the signaled outcome is FAILED with a
descriptive message, and no object-store or cache calls occur — the whole
trace is that single response. -/
theorem c5_invalid_logical_id (w : World) (cfg : Config) (ev : CfnEvent)
    (h : ev.LogicalResourceId ≠ "WebsiteDeployment") :
    handler w cfg ev =
      [Action.response constants.FAILED
        ("Invalid LogicalResourceId: " ++ ev.LogicalResourceId) none] ∧
    ∀ a ∈ handler w cfg ev, a.isStoreOrCacheCall = false := by
  have ht : handler w cfg ev =
      [Action.response constants.FAILED
        ("Invalid LogicalResourceId: " ++ ev.LogicalResourceId) none] := by
    simp [handler, h]
  refine ⟨ht, ?_⟩
  intro a ha
  rw [ht] at ha
  simp only [List.mem_singleton] at ha
  subst ha
  rfl

/-- Witness for C5 at a concrete request with a wrong logical resource id. -/
theorem c5_invalid_logical_id_witness :
    handler (roundTripWorld [1] [2]) ⟨none⟩
        { roundTripEvent "Create" "src" "art" "db" with LogicalResourceId := "SomethingElse" } =
      [Action.response constants.FAILED "Invalid LogicalResourceId: SomethingElse" none] ∧
    ∀ a ∈ handler (roundTripWorld [1] [2]) ⟨none⟩
        { roundTripEvent "Create" "src" "art" "db" with LogicalResourceId := "SomethingElse" },
      a.isStoreOrCacheCall = false :=
  c5_invalid_logical_id (roundTripWorld [1] [2]) ⟨none⟩
    { roundTripEvent "Create" "src" "art" "db" with LogicalResourceId := "SomethingElse" }
    (by decide)

/-- C6: for every Create or Update request whose options bag is absent or is
missing any of `SourceBucket`, `SourceArtifact`, `DestinationBucket`, the
signaled outcome is FAILED with the message naming the required options, and
the trace contains no object-store or cache calls. -/
theorem c6_missing_options (w : World) (cfg : Config) (ev : CfnEvent)
    (hlog : ev.LogicalResourceId = "WebsiteDeployment")
    (hreq : ev.RequestType = constants.CREATE ∨ ev.RequestType = constants.UPDATE)
    (hmiss : ev.Options = none ∨ ∃ opts, ev.Options = some opts ∧
      (opts.SourceBucket = none ∨ opts.SourceArtifact = none ∨
       opts.DestinationBucket = none)) :
    handler w cfg ev =
      [Action.response constants.FAILED
        "Missing required options: SourceBucket, SourceArtifact, DestinationBucket" none] ∧
    ∀ a ∈ handler w cfg ev, a.isStoreOrCacheCall = false := by
  have ht : handler w cfg ev = uploadArtifacts w cfg ev.Options := by
    rcases hreq with h | h <;> simp [handler, hlog, h, constants]
  have hu : uploadArtifacts w cfg ev.Options =
      [Action.response constants.FAILED
        "Missing required options: SourceBucket, SourceArtifact, DestinationBucket" none] := by
    rcases hmiss with h | ⟨opts, hsome, hfield⟩
    · simp [uploadArtifacts, h]
    · rcases hfield with hf | hf | hf <;> simp [uploadArtifacts, hsome, hf, truthy]
  refine ⟨ht.trans hu, ?_⟩
  intro a ha
  rw [ht, hu] at ha
  simp only [List.mem_singleton] at ha
  subst ha
  rfl

/-- Witness for C6 at a concrete Update request missing `DestinationBucket`. -/
theorem c6_missing_options_witness :
    handler (roundTripWorld [1] [2]) ⟨none⟩
        { roundTripEvent "Update" "src" "art" "db" with
          Options := some ⟨some "src", some "art", none⟩ } =
      [Action.response constants.FAILED
        "Missing required options: SourceBucket, SourceArtifact, DestinationBucket" none] ∧
    ∀ a ∈ handler (roundTripWorld [1] [2]) ⟨none⟩
        { roundTripEvent "Update" "src" "art" "db" with
          Options := some ⟨some "src", some "art", none⟩ },
      a.isStoreOrCacheCall = false :=
  c6_missing_options (roundTripWorld [1] [2]) ⟨none⟩
    { roundTripEvent "Update" "src" "art" "db" with
      Options := some ⟨some "src", some "art", none⟩ }
    rfl (Or.inr rfl) (Or.inr ⟨⟨some "src", some "art", none⟩, rfl, Or.inr (Or.inr rfl)⟩)

/-- C1 (code bug): on the cache-invalidation-failure path the handler sends
TWO callback responses, not exactly one — after all uploads succeed and the
CloudFront invalidation fails, line 277 sends a FAILED response but, missing a
`return`, line 279 still sends the SUCCESS response. -/
theorem c1_two_responses_on_invalidation_failure :
    countResponses
      (handler invalidationFailWorld ⟨some "DISTRIBUTION123"⟩
        (roundTripEvent "Create" "source-bucket" "artifact.zip" "dest-bucket")) = 2 := by
  decide

/-- C2 (code bug): when every object publishes successfully and the cache
invalidation then fails, the handler signals FAILED and afterwards still
signals SUCCESS, so the last signaled outcome is SUCCESS, contradicting the
claim that the final outcome is FAILED. -/
theorem c2_success_signaled_after_failed_invalidation :
    responses
      (handler invalidationFailWorld ⟨some "DISTRIBUTION123"⟩
        (roundTripEvent "Update" "source-bucket" "artifact.zip" "dest-bucket")) =
      [Action.response constants.FAILED
        "Error while uploading a.txt,b/c.css to destination bucket: AccessDenied" none,
       Action.response constants.SUCCESS "OK" (some "Deployment::dest-bucket")] := by
  decide

/-- C3 counterexample: a Delete request with the non-empty malformed physical
resource id `malformed-id` (no `::` separator) is NOT rejected: `listObjects`
is dispatched (with an undefined bucket) and the signaled outcome is SUCCESS,
not FAILED. -/
theorem c3_counterexample :
    handler (roundTripWorld [1] [2]) ⟨none⟩ (deleteEvent (some "malformed-id")) =
      [Action.listObjectsCall none,
       Action.response constants.SUCCESS "OK" (some "malformed-id")] := by
  decide

/-- C3 (amended): only an absent or empty (falsy) physical resource id makes
Delete fail with no list/delete calls; a non-empty id without a `::` separator
is not rejected — the bucket parses as `undefined`, `listObjects` is still
dispatched, and the top-level outcome signaled is SUCCESS echoing the id. -/
theorem c3_amended_delete_id_validation (w : World) (cfg : Config) (ev : CfnEvent)
    (hlog : ev.LogicalResourceId = "WebsiteDeployment")
    (hreq : ev.RequestType = constants.DELETE) :
    (truthy ev.PhysicalResourceId = false →
      handler w cfg ev =
        [Action.response constants.FAILED
          ("Invalid physical resource id: " ++ jsShow ev.PhysicalResourceId) none]) ∧
    (∀ rid, ev.PhysicalResourceId = some rid → rid ≠ "" →
      (jsSplit rid "::")[1]? = none →
      Action.listObjectsCall none ∈ handler w cfg ev ∧
      Action.response constants.SUCCESS "OK" (some rid) ∈ handler w cfg ev) := by
  have ht : handler w cfg ev = cleanBucket w ev.PhysicalResourceId := by
    simp [handler, hlog, hreq, constants]
  constructor
  · intro h
    rw [ht]
    simp [cleanBucket, h]
  · intro rid hr hne hsplit
    rw [ht, hr]
    have htr : truthy (some rid) = true := by simp [truthy, hne]
    simp [cleanBucket, htr, jsShow, hsplit]

/-- Witness for C3's amended claim at the concrete malformed id. -/
theorem c3_amended_witness :
    Action.listObjectsCall none ∈
      handler (roundTripWorld [3] [4]) ⟨none⟩ (deleteEvent (some "no-separator")) ∧
    Action.response constants.SUCCESS "OK" (some "no-separator") ∈
      handler (roundTripWorld [3] [4]) ⟨none⟩ (deleteEvent (some "no-separator")) :=
  (c3_amended_delete_id_validation (roundTripWorld [3] [4]) ⟨none⟩
      (deleteEvent (some "no-separator")) rfl rfl).2
    "no-separator" rfl (by decide) (by decide)

/-- C10: when the callback HTTP PUT itself succeeds, the Lambda completion
callback receives the FAILED status as its error argument (failing the
invocation), while a SUCCESS status completes the invocation without error,
passing the response data along. -/
theorem c10_completion_mirrors_status (ev : CfnEvent) (logStreamName m : String)
    (pid : Option String) :
    ((sendCloudFormationResponse ev logStreamName constants.FAILED m pid
        (Except.ok ())).2.errorArg = some constants.FAILED) ∧
    ((sendCloudFormationResponse ev logStreamName constants.SUCCESS m pid
        (Except.ok ())).2.errorArg = none) ∧
    ((sendCloudFormationResponse ev logStreamName constants.SUCCESS m pid
        (Except.ok ())).2.dataArg = some m) := by
  refine ⟨?_, ?_, ?_⟩ <;> simp [sendCloudFormationResponse, constants]

/-- C4: for every Delete request with a well-formed physical resource id (one
the `::` split gives at least two parts), the trace opens with the
`listObjects` dispatch immediately followed by the SUCCESS response echoing
the original physical resource id — for every collaborator oracle, i.e.
regardless of later listing or deletion outcomes. -/
theorem c4_delete_immediate_success (w : World) (cfg : Config) (ev : CfnEvent) (rid : String)
    (hlog : ev.LogicalResourceId = "WebsiteDeployment")
    (hreq : ev.RequestType = constants.DELETE)
    (hrid : ev.PhysicalResourceId = some rid)
    (hw : 2 ≤ (jsSplit rid "::").length) :
    ∃ bucketName, (jsSplit rid "::")[1]? = some bucketName ∧
      (handler w cfg ev).take 2 =
        [Action.listObjectsCall (some bucketName),
         Action.response constants.SUCCESS "OK" (some rid)] := by
  have hne : rid ≠ "" := by
    intro h
    rw [h] at hw
    have h1 : (jsSplit "" "::").length = 1 := by decide
    omega
  obtain ⟨bucketName, hb⟩ : ∃ b, (jsSplit rid "::")[1]? = some b := by
    have h1 : 1 < (jsSplit rid "::").length := hw
    exact ⟨_, List.getElem?_eq_getElem h1⟩
  have htr : truthy (some rid) = true := by simp [truthy, hne]
  refine ⟨bucketName, hb, ?_⟩
  simp [handler, hlog, hreq, constants, cleanBucket, hrid, htr, jsShow, hb]

/-- Witness for C4 with the well-formed id `Deployment::my-bucket`. -/
theorem c4_delete_immediate_success_witness :
    ∃ bucketName, (jsSplit "Deployment::my-bucket" "::")[1]? = some bucketName ∧
      (handler (roundTripWorld [1] [2]) ⟨none⟩
          (deleteEvent (some "Deployment::my-bucket"))).take 2 =
        [Action.listObjectsCall (some bucketName),
         Action.response constants.SUCCESS "OK" (some "Deployment::my-bucket")] :=
  c4_delete_immediate_success (roundTripWorld [1] [2]) ⟨none⟩
    (deleteEvent (some "Deployment::my-bucket")) "Deployment::my-bucket"
    rfl rfl rfl (by decide)

/-- C7: on a fully successful Create/Update whose artifact contains
`package.zip` holding exactly `a.txt` and `b/c.css`, the handler performs one
fetch, publishes exactly the two objects `a.txt` (`text/plain`) and `b/c.css`
(`text/css`) to the destination bucket, and signals SUCCESS with physical
resource id `Deployment::<destinationBucket>`. -/
theorem c7_round_trip (rt sb sa db : String) (d1 d2 : List Nat)
    (hrt : rt = constants.CREATE ∨ rt = constants.UPDATE)
    (hsb : sb ≠ "") (hsa : sa ≠ "") (hdb : db ≠ "") :
    handler (roundTripWorld d1 d2) ⟨none⟩ (roundTripEvent rt sb sa db) =
      [Action.getObjectCall sb sa,
       Action.putObjectCall db "a.txt" d1.length (some "text/plain"),
       Action.putObjectCall db "b/c.css" d2.length (some "text/css"),
       Action.response constants.SUCCESS "OK" (some ("Deployment::" ++ db))] := by
  have m1 : mime_getType (deploymentDir ++ "/" ++ "a.txt") = some "text/plain" := by decide
  have m2 : mime_getType (deploymentDir ++ "/" ++ "b/c.css") = some "text/css" := by decide
  have m1' : mime_getType "/tmp/dist/a.txt" = some "text/plain" := by decide
  have m2' : mime_getType "/tmp/dist/b/c.css" = some "text/css" := by decide
  rcases hrt with h | h <;> subst h <;>
    simp [handler, uploadArtifacts, roundTripWorld, roundTripEvent, constants, truthy,
      hsb, hsa, hdb, anyPutFailed, collectResults, deploymentDir, m1, m2, m1', m2']

/-- Witness for C7 at concrete bucket names and file bytes. -/
theorem c7_round_trip_witness :
    handler (roundTripWorld [10, 20] [30]) ⟨none⟩
        (roundTripEvent "Create" "source-bucket" "artifact.zip" "site-bucket") =
      [Action.getObjectCall "source-bucket" "artifact.zip",
       Action.putObjectCall "site-bucket" "a.txt" 2 (some "text/plain"),
       Action.putObjectCall "site-bucket" "b/c.css" 1 (some "text/css"),
       Action.response constants.SUCCESS "OK" (some ("Deployment::" ++ "site-bucket"))] :=
  c7_round_trip "Create" "source-bucket" "artifact.zip" "site-bucket" [10, 20] [30]
    (Or.inl rfl) (by decide) (by decide) (by decide)

/-- C8 counterexample: for the file `file.xyz`, whose type the mime database
cannot resolve, the upload's content type is absent (`none`), not the generic
binary fallback the claim asserts — `mime.getType` yields null and the handler
attaches it unchanged. -/
theorem c8_counterexample :
    mime_getType (deploymentDir ++ "/" ++ "file.xyz") = none ∧
    handler unknownTypeWorld ⟨none⟩ (roundTripEvent "Create" "src" "art" "db") =
      [Action.getObjectCall "src" "art",
       Action.putObjectCall "db" "file.xyz" 1 none,
       Action.response constants.SUCCESS "OK" (some "Deployment::db")] := by
  constructor <;> decide

/-- C8 (amended): the content type attached to every published file is exactly
`mime.getType` of the file's scratch path (resolved from its name/extension);
when the type cannot be resolved this is `none` — the content type is absent,
with no generic-binary fallback. -/
theorem c8_amended_content_type (w : World) (cfg : Config) (ev : CfnEvent)
    (opts : ResourceOptions)
    (hlog : ev.LogicalResourceId = "WebsiteDeployment")
    (hreq : ev.RequestType = constants.CREATE ∨ ev.RequestType = constants.UPDATE)
    (hopts : ev.Options = some opts)
    (hsb : truthy opts.SourceBucket = true)
    (hsa : truthy opts.SourceArtifact = true)
    (hdb : truthy opts.DestinationBucket = true)
    (names : List String)
    (hget : w.getObjectResult = Except.ok names)
    (hsave : w.saveError = none)
    (hfound : names.any (fun n => n == "package.zip") = true)
    (e : InnerEntry) (he : e ∈ w.innerArchive) (hdir : e.isDirectory = false) :
    Action.putObjectCall (opts.DestinationBucket.getD "") e.entryName e.data.length
      (mime_getType (deploymentDir ++ "/" ++ e.entryName)) ∈ handler w cfg ev := by
  have ht : handler w cfg ev = uploadArtifacts w cfg ev.Options := by
    rcases hreq with h | h <;> simp [handler, hlog, h, constants]
  rw [ht, hopts]
  have hmem : Action.putObjectCall (opts.DestinationBucket.getD "") e.entryName e.data.length
      (mime_getType (deploymentDir ++ "/" ++ e.entryName)) ∈
      (w.innerArchive.filter (fun x => !x.isDirectory)).map (fun x =>
        Action.putObjectCall (opts.DestinationBucket.getD "") x.entryName x.data.length
          (mime_getType (deploymentDir ++ "/" ++ x.entryName))) :=
    List.mem_map_of_mem _ (List.mem_filter.mpr ⟨he, by simp [hdir]⟩)
  simp only [uploadArtifacts, hsb, hsa, hdb, hget, hsave, hfound, Bool.and_self,
    Bool.not_true, Bool.false_eq_true, if_false, List.mem_cons, List.mem_append]
  right
  right
  left
  exact hmem

/-- Witness for C8's amended claim: the unresolvable `file.xyz` upload carries
`mime.getType`'s verbatim (null) result. -/
theorem c8_amended_witness :
    Action.putObjectCall "db" "file.xyz" 1
        (mime_getType (deploymentDir ++ "/" ++ "file.xyz")) ∈
      handler unknownTypeWorld ⟨none⟩ (roundTripEvent "Update" "src" "art" "db") :=
  c8_amended_content_type unknownTypeWorld ⟨none⟩ (roundTripEvent "Update" "src" "art" "db")
    ⟨some "src", some "art", some "db"⟩ rfl (Or.inr rfl) rfl (by decide) (by decide) (by decide)
    ["package.zip"] rfl rfl (by decide) ⟨"file.xyz", false, [7]⟩ (by decide) rfl

/-- Every SUCCESS response `uploadArtifacts` can emit carries the physical
resource id derived from the destination bucket (index.js line 180). -/
theorem uploadArtifacts_success_pid (w : World) (cfg : Config) (opts : ResourceOptions)
    (m : String) (pid : Option String)
    (hmem : Action.response constants.SUCCESS m pid ∈ uploadArtifacts w cfg (some opts)) :
    pid = some ("Deployment::" ++ opts.DestinationBucket.getD "") := by
  unfold uploadArtifacts at hmem
  repeat' split at hmem
  all_goals
    simp only [List.mem_cons, List.mem_append, List.mem_singleton, List.mem_map,
      List.not_mem_nil, or_false, false_or] at hmem
  all_goals repeat' split at hmem
  all_goals simp_all [constants]

/-- C9: on the Create/Update path the physical resource id signaled with any
SUCCESS response is `Deployment::<destinationBucket>` — a function of the
destination bucket only (the statement quantifies over the oracle, the
configuration, the request type and the remaining options), so repeated
Create/Update invocations with the same destination bucket produce the
identical physical resource id. -/
theorem c9_physical_resource_id (w : World) (cfg : Config) (ev : CfnEvent)
    (opts : ResourceOptions) (db : String)
    (hlog : ev.LogicalResourceId = "WebsiteDeployment")
    (hreq : ev.RequestType = constants.CREATE ∨ ev.RequestType = constants.UPDATE)
    (hopts : ev.Options = some opts)
    (hdb : opts.DestinationBucket = some db)
    (m : String) (pid : Option String)
    (hmem : Action.response constants.SUCCESS m pid ∈ handler w cfg ev) :
    pid = some ("Deployment::" ++ db) := by
  have ht : handler w cfg ev = uploadArtifacts w cfg ev.Options := by
    rcases hreq with h | h <;> simp [handler, hlog, h, constants]
  rw [ht, hopts] at hmem
  have hp := uploadArtifacts_success_pid w cfg opts m pid hmem
  rw [hdb] at hp
  simpa using hp

/-- Witness for C9 at a concrete fully successful Create. -/
theorem c9_witness :
    some "Deployment::db" = some ("Deployment::" ++ "db") :=
  c9_physical_resource_id (roundTripWorld [1] [2]) ⟨none⟩
    (roundTripEvent "Create" "src" "art" "db") ⟨some "src", some "art", some "db"⟩ "db"
    rfl (Or.inl rfl) rfl rfl "OK" (some "Deployment::db") (by decide)

end S3DeploymentCustomResource
